import Mathlib

/-!
Verification of the strands-agents-builder CLI: a shallow embedding of the
session directory store (`utils/session_utils.py`), the knowledge-base store
tool (`tools/store_in_kb.py`), the interactive command loop (`strands.py`) and
the MCP connection initializer (`utils/mcp_utils.py`), together with theorems
settling the specification's claims about them.

Python strings are modelled as `List Char` (code points); the helpers below
reimplement the exact Python string primitives the code relies on
(`in` substring test, `str.strip`, `str.lower`, `str.startswith`,
`os.path.basename`, `pathlib.PurePath.suffix`, truthiness of strings,
`sorted`).
-/

/-- Python string model: a list of Unicode code points. -/
abbrev PyStr := List Char

/-- The characters `str.strip()` removes (ASCII whitespace; the Python
original also strips other Unicode whitespace, which the inputs here never
contain). -/
def isPySpace (c : Char) : Bool :=
  c = ' ' || c = '\t' || c = '\n' || c = '\x0d' || c = '\x0b' || c = '\x0c'

/-- Model of `str.strip()`: drop leading and trailing whitespace. -/
def pyStrip (s : PyStr) : PyStr :=
  ((s.dropWhile isPySpace).reverse.dropWhile isPySpace).reverse

/-- Lowercase one ASCII character, as `str.lower` does on ASCII input. -/
def pyLowerChar (c : Char) : Char :=
  if 'A' ≤ c ∧ c ≤ 'Z' then Char.ofNat (c.toNat + 32) else c

/-- Model of `str.lower()` (ASCII fragment). -/
def pyLower (s : PyStr) : PyStr := s.map pyLowerChar

/-- Boolean list-equality test on code points. -/
def isPfx : PyStr → PyStr → Bool
  | [], _ => true
  | _ :: _, [] => false
  | a :: as, b :: bs => if a = b then isPfx as bs else false

/-- Python `needle in hay` substring containment. -/
def pyContains : PyStr → PyStr → Bool
  | hay, needle =>
    match hay with
    | [] => needle.isEmpty
    | _ :: t => isPfx needle hay || pyContains t needle

/-- Model of `str.startswith(pre)`. -/
def pyStartsWith (s pre : PyStr) : Bool := isPfx pre s

/-- Python truthiness of an optional string (`None` and `""` are falsy). -/
def pyTruthy : Option PyStr → Bool
  | none => false
  | some s => !s.isEmpty

/-- Resolve `a or b` for optional strings, as Python evaluates it. -/
def pyOrElse (a b : Option PyStr) : Option PyStr :=
  if pyTruthy a then a else b

/-- Lexicographic comparison on code points, the order Python `sorted` uses
on strings. -/
def pyLe : PyStr → PyStr → Bool
  | [], _ => true
  | _ :: _, [] => false
  | a :: as, b :: bs => if a < b then true else if a = b then pyLe as bs else false

/-- Relation form of `pyLe`, decidable. -/
def pyLeP (a b : PyStr) : Prop := pyLe a b = true

instance : DecidableRel pyLeP := fun a b => instDecidableEqBool (pyLe a b) true

/-- Python `sorted` on strings: sort by `pyLe` (ties are identical strings,
so stability is immaterial). -/
def pySorted (l : List PyStr) : List PyStr :=
  List.insertionSort pyLeP l

/-- Model of `os.path.basename`: the part after the last `/`. -/
def pyBasename (s : PyStr) : PyStr :=
  ((s.reverse.takeWhile (fun c => c ≠ '/'))).reverse

/-- Model of `str.replace(old, new)` for single-character old/new. -/
def pyReplaceChar (s : PyStr) (old new : Char) : PyStr :=
  s.map (fun c => if c = old then new else c)

/-- Index of the last `.` in a name, if any (0-based). -/
def lastDotIdx (s : PyStr) : Option Nat :=
  match s.reverse.findIdx? (fun c => c = '.') with
  | none => none
  | some j => some (s.length - 1 - j)

/-- Model of `pathlib.PurePath.suffix` of a file name: the substring from the last
dot, unless that dot is the first character or the last character. -/
def pySuffix (s : PyStr) : PyStr :=
  match lastDotIdx s with
  | none => []
  | some i => if 0 < i ∧ i + 1 < s.length then s.drop i else []

/-! ## Session directory store (`utils/session_utils.py`)

The on-disk session store under `base_path` is modelled by `SessionStore`:
the optional listing of the base directory (absent directory = `none`), a
flag for `iterdir` raising `OSError`/`PermissionError`, and a flag for
`stat`/walk errors during `get_session_info`.  Each immediate entry carries
the data `session_exists`/`get_session_info` inspect. -/

/-- A file-level entry of an `agents/<agent>/messages/` directory. -/
structure FileEntry where
  name : PyStr
  isFile : Bool
deriving DecidableEq

/-- An entry of the `agents/` directory of one session: its `messages`
subdirectory listing, or `none` when `messages` is absent. -/
structure AgentEntry where
  name : PyStr
  isDir : Bool
  messagesDir : Option (List FileEntry)
deriving DecidableEq

/-- Contents of one `session_<id>` directory relevant to the code: the
`session.json` marker, the directory creation time, and the `agents/`
directory listing (`none` when absent). -/
structure SessionDirData where
  hasSessionJson : Bool
  createdAt : Nat
  agentsDir : Option (List AgentEntry)
deriving DecidableEq

/-- An immediate entry of the base sessions directory. -/
structure BaseEntry where
  name : PyStr
  isDir : Bool
  dirData : SessionDirData
deriving DecidableEq

/-- The filesystem as seen from `base_path`. -/
structure SessionStore where
  root : Option (List BaseEntry)
  iterFails : Bool
  statFails : Bool
deriving DecidableEq

/-- The `SESSION_PREFIX` constant of `session_utils.py`. -/
def sessionPfx : PyStr := "session_".data

/-- Embedding of `validate_session_id` (`session_utils.py:31`): safe-directory-name check.
Python's `char in session_id` is substring containment, so the `".."` element
is a two-character substring test. -/
def validate_session_id (session_id : PyStr) : Bool :=
  if session_id.isEmpty then false
  else if pyContains session_id "/".data || pyContains session_id "\\".data
      || pyContains session_id "..".data || pyContains session_id [Char.ofNat 0] then false
  else if pyStartsWith session_id ".".data || session_id.length > 255 then false
  else true

/-- Embedding of `validate_session_path` (`session_utils.py:46`): non-empty and the
rendered path is under 4096 characters.  `str(Path(path))` is modelled as
`path` itself; the `Path` constructor performs no filesystem access and its
normalization only ever shortens the string, which no claim depends on. -/
def validate_session_path (path : PyStr) : Bool :=
  !path.isEmpty && decide (path.length < 4096)

/-- The directory name `session_<id>`. -/
def sessionDirName (session_id : PyStr) : PyStr := sessionPfx ++ session_id

/-- Look up an immediate entry of the base directory by name. -/
def findEntry (st : SessionStore) (name : PyStr) : Option BaseEntry :=
  match st.root with
  | none => none
  | some es => es.find? (fun e => decide (e.name = name))

/-- A filesystem probe performed by `session_exists`: the `.exists()` call on
the session directory, or on its `session.json` marker. -/
inductive FsCheck where
  | dirCheck (session_id : PyStr)
  | jsonCheck (session_id : PyStr)
deriving DecidableEq

/-- Embedding of `session_exists` (`session_utils.py:121`), instrumented with the list of
filesystem probes it performs.  The guard
`not base_path or not validate_session_path(base_path) or not
validate_session_id(session_id)` runs before any probe; `Path.exists()` on the
session directory is true for files as well, and the `session.json` probe is
reached only when the first probe succeeds (Python `and` short-circuit). -/
def session_exists_t (st : SessionStore) (session_id : PyStr) (base_path : Option PyStr) :
    Bool × List FsCheck :=
  if !pyTruthy base_path || !validate_session_path (base_path.getD [])
      || !validate_session_id session_id then
    (false, [])
  else
    match findEntry st (sessionDirName session_id) with
    | none => (false, [FsCheck.dirCheck session_id])
    | some e =>
      (e.isDir && e.dirData.hasSessionJson,
       [FsCheck.dirCheck session_id, FsCheck.jsonCheck session_id])

/-- The function `session_exists`: the Boolean result alone. -/
def session_exists (st : SessionStore) (session_id : PyStr) (base_path : Option PyStr) : Bool :=
  (session_exists_t st session_id base_path).1

/-- Embedding of the selection loop of `list_available_sessions`
(`session_utils.py:98`): keep subdirectories named `session_<sid>` whose
stripped `sid` passes `validate_session_id`, yielding the stripped ids in
directory order.  The full function guards its inputs, sorts this selection,
and catches `iterdir` failures (yielding the sorted empty collection). -/
def selectSessionIds (es : List BaseEntry) : List PyStr :=
  es.filterMap (fun e =>
    if e.isDir && pyStartsWith e.name sessionPfx then
      let sid := e.name.drop sessionPfx.length
      if validate_session_id sid then some sid else none
    else none)

/-- The function `list_available_sessions` proper: guard the inputs, then
select and sort. -/
def list_available_sessions (st : SessionStore) (base_path : Option PyStr) : List PyStr :=
  if !pyTruthy base_path || !validate_session_path (base_path.getD []) then []
  else
    match st.root with
    | none => []
    | some es =>
      if st.iterFails then pySorted []
      else pySorted (selectSessionIds es)

/-- The record `get_session_info` returns. -/
structure SessionInfo where
  session_id : PyStr
  created_at : Nat
  total_messages : Nat
  path : PyStr
deriving DecidableEq

/-- Count of `.json` message files of one agent entry, as the comprehension
`[f for f in messages_dir.iterdir() if f.is_file() and f.suffix == ".json"]`
computes it (skipped when the agent entry is not a directory or has no
`messages` subdirectory). -/
def agentJsonCount (a : AgentEntry) : Nat :=
  match a.messagesDir with
  | none => 0
  | some files =>
    (files.filter (fun f => f.isFile && decide (pySuffix f.name = ".json".data))).length

/-- Total `.json` message-file count over the `agents/` listing, as the
nested loop of `get_session_info` computes it. -/
def totalMessages (agentsDir : Option (List AgentEntry)) : Nat :=
  match agentsDir with
  | none => 0
  | some agents => ((agents.filter (fun a => a.isDir)).map agentJsonCount).sum

/-- Embedding of `get_session_info` (`session_utils.py:135`): `none` unless the inputs
validate and `session_exists` holds; otherwise stat the directory (errors
degrade to `none`) and count `.json` files under `agents/*/messages/`. -/
def get_session_info (st : SessionStore) (session_id : PyStr) (base_path : Option PyStr) :
    Option SessionInfo :=
  if !pyTruthy base_path || !validate_session_path (base_path.getD [])
      || !validate_session_id session_id then none
  else if !session_exists st session_id base_path then none
  else
    match findEntry st (sessionDirName session_id) with
    | none => none
    | some e =>
      if st.statFails then none
      else
        some { session_id := session_id
               created_at := e.dirData.createdAt
               total_messages := totalMessages e.dirData.agentsDir
               path := base_path.getD [] ++ ('/' :: sessionDirName session_id) }

/-- The external `FileSessionManager` handle: all this code reads from it is
its reported `session_id` (plus the storage directory it was given). -/
structure FileSessionManager where
  session_id : PyStr
  storage_dir : PyStr
deriving DecidableEq

/-- Embedding of `create_session_manager` (`session_utils.py:80`), parameterized by the
external `FileSessionManager` constructor `mkMgr` (the backend may report any
session id it likes) and by the value `gen` that `generate_session_id()`
returns for this call.  `session_id is None` triggers generation; an
explicit id (even `""`) is validated instead. -/
def create_session_manager (mkMgr : PyStr → PyStr → FileSessionManager) (gen : PyStr)
    (session_id : Option PyStr) (base_path : Option PyStr) : Option FileSessionManager :=
  if !pyTruthy base_path || !validate_session_path (base_path.getD []) then none
  else
    match session_id with
    | none => some (mkMgr gen (base_path.getD []))
    | some sid =>
      if !validate_session_id sid then none
      else some (mkMgr sid (base_path.getD []))

/-- Embedding of `setup_session_management` (`session_utils.py:254`): decide
resume-vs-create, build the handle, and let the handle's reported id override
the controller's guess.  `if session_base_path:` and `if session_id:` are
Python truthiness tests. -/
def setup_session_management (mkMgr : PyStr → PyStr → FileSessionManager) (gen : PyStr)
    (st : SessionStore) (session_id : Option PyStr) (session_base_path : Option PyStr) :
    Option FileSessionManager × Option PyStr × Bool :=
  if !pyTruthy session_base_path then (none, none, false)
  else
    let resolved₀ : Option PyStr := if pyTruthy session_id then session_id else none
    let is_resuming :=
      if pyTruthy session_id then
        session_exists st (session_id.getD []) session_base_path
      else false
    match create_session_manager mkMgr gen resolved₀ session_base_path with
    | some m => (some m, some m.session_id, is_resuming)
    | none => (none, resolved₀, is_resuming)

/-! ## Knowledge-base store tool (`tools/store_in_kb.py`)

The remote Bedrock store is modelled by the list of data sources the
`list_data_sources` call reports, with each source carrying the type that the
corresponding `get_data_source` call reports.  The background worker is
embedded as a trace of the logging and ingestion actions it performs; the
`try`/`except` wrapper around the body is represented by flags for the two
remote calls that can fail after source selection. -/

/-- One data source of the knowledge base: its id from the
`dataSourceSummaries` listing and the `dataSourceConfiguration.type` the
detail call reports for it. -/
structure DataSource where
  dataSourceId : PyStr
  dsType : PyStr
deriving DecidableEq

/-- An observable action of the background worker. -/
inductive BgAction where
  | logDebug (msg : PyStr)
  | logError (msg : PyStr)
  | logInfo (msg : PyStr)
  | ingest (kb ds doc : PyStr)
deriving DecidableEq

/-- Embedding of `_store_in_kb_background` (`store_in_kb.py:20`), returning its
action trace.  Inputs: the `STRANDS_KNOWLEDGE_BASE_ID` environment value, the
data sources of the remote store, the call arguments, the timestamp and uuid
fragment the worker generates, and flags for the `list_data_sources` and
`ingest_knowledge_base_documents` remote calls raising (any exception is
caught by the enclosing handler and logged).  Python truthiness drives the
`if not kb_id`, `if not content or not content.strip()`,
`if not data_source_id` and fallback guards; in particular a data source
whose id is the empty string counts as not found. -/
def store_in_kb_background (env_kb : Option PyStr) (sources : List DataSource)
    (listFails ingestFails : Bool) (content : PyStr) (title : Option PyStr)
    (knowledge_base_id : Option PyStr) (timestamp uuid8 : PyStr) : List BgAction :=
  let kb_id := pyOrElse knowledge_base_id env_kb
  if !pyTruthy kb_id then
    [BgAction.logDebug "No knowledge base ID provided or found in environment variables STRANDS_KNOWLEDGE_BASE_ID".data]
  else if content.isEmpty || (pyStrip content).isEmpty then
    [BgAction.logDebug "Content cannot be empty".data]
  else
    let kb := kb_id.getD []
    let doc_id := "memory_".data ++ timestamp ++ "_".data ++ uuid8
    if listFails then
      [BgAction.logError "Error ingesting into knowledge base".data]
    else if sources.isEmpty then
      [BgAction.logError ("No data sources found for knowledge base ".data ++ kb)]
    else
      let found := sources.find? (fun ds => decide (ds.dsType = "CUSTOM".data))
      let dsId₀ : PyStr := match found with
        | some ds => ds.dataSourceId
        | none => []
      let type₀ : PyStr := match found with
        | some _ => "CUSTOM".data
        | none => []
      let chosen : PyStr × PyStr :=
        if dsId₀.isEmpty then
          match sources with
          | ds :: _ => (ds.dataSourceId, ds.dsType)
          | [] => (dsId₀, type₀)
        else (dsId₀, type₀)
      if chosen.1.isEmpty then
        [BgAction.logError ("No suitable data source found for knowledge base ".data ++ kb)]
      else if chosen.2 = "CUSTOM".data then
        if ingestFails then
          [BgAction.ingest kb chosen.1 doc_id,
           BgAction.logError "Error ingesting into knowledge base".data]
        else
          [BgAction.ingest kb chosen.1 doc_id,
           BgAction.logInfo ("Successfully ingested document into knowledge base ".data ++ kb ++ ": ".data ++ doc_id)]
      else if chosen.2 = "S3".data then
        [BgAction.logError "S3 data source type is not supported for direct ingestion with this tool.".data]
      else
        [BgAction.logError ("Unsupported data source type: ".data ++ chosen.2)]

/-- A tool result dict: `status` plus the `text` blocks of `content`. -/
structure ToolResult where
  status : PyStr
  texts : List PyStr
deriving DecidableEq

/-- Arguments of one spawned background thread: `(content, title,
knowledge_base_id)` exactly as `threading.Thread(..., args=...)` receives
them. -/
structure ThreadSpawn where
  content : PyStr
  title : Option PyStr
  knowledge_base_id : Option PyStr
deriving DecidableEq

/-- Embedding of the caller-facing `store_in_kb` tool (`store_in_kb.py:130`):
validate synchronously, then spawn the background thread and report success
immediately.  The second component lists the threads spawned during the
call. -/
def store_in_kb (env_kb : Option PyStr) (timestamp : PyStr) (content : PyStr)
    (title : Option PyStr) (knowledge_base_id : Option PyStr) :
    ToolResult × List ThreadSpawn :=
  if content.isEmpty || (pyStrip content).isEmpty then
    ({ status := "error".data, texts := ["❌ Content cannot be empty".data] }, [])
  else
    let kb_id := pyOrElse knowledge_base_id env_kb
    if !pyTruthy kb_id then
      ({ status := "error".data,
         texts := ["❌ No knowledge base ID provided or found in environment variables STRANDS_KNOWLEDGE_BASE_ID".data] }, [])
    else
      let doc_title := match title with
        | some t => if t.isEmpty then "Strands Memory ".data ++ timestamp else t
        | none => "Strands Memory ".data ++ timestamp
      ({ status := "success".data,
         texts := ["✅ Started background task to store content in knowledge base:".data,
                   "📝 Title: ".data ++ doc_title,
                   "🗄️ Knowledge Base ID: ".data ++ kb_id.getD [],
                   "⏱️ Processing in background...".data] },
       [{ content := content, title := title, knowledge_base_id := knowledge_base_id }])

/-! ## Interactive command loop (`strands.py`)

The loop is embedded as a function from the list of lines the user will type
to the trace of observable events.  `get_user_input("\n~ ", ...)` prints a
newline before the prompt on every read, recorded as `Event.promptNL`; when
the input list is exhausted the read raises `EOFError`, which the loop treats
exactly like `exit`. -/

/-- Observable events of one interactive run. -/
inductive Event where
  | promptNL
  | goodbye
  | welcomeView
  | renderWelcome (text : PyStr)
  | history (session_id : PyStr)
  | sessionCmd (cmd : PyStr)
  | echoShell (cmd : PyStr)
  | shellCall (cmd : PyStr)
  | shellError (cmd : PyStr)
  | retrieve (text : PyStr)
  | agentQuery (q : PyStr)
  | storeKB (q : PyStr)
  | turnError
deriving DecidableEq

/-- Ambient configuration of the loop: the knowledge-base id, the session
id and base path as the loop receives them, the startup welcome-tool result,
and oracles telling which shell commands and agent queries raise. -/
structure LoopEnv where
  knowledge_base_id : Option PyStr
  session_id : Option PyStr
  session_base_path : Option PyStr
  welcomeOk : Bool
  welcomeText : PyStr
  shellRaises : PyStr → Bool
  agentRaises : PyStr → Bool

/-- Embedding of `handle_session_commands` (`session_utils.py:279`): the
Boolean "command was handled".  The `session info` and `session list`
branches also require a truthy session id / base path; any other command
starting with `session ` prints help and is handled. -/
def handle_session_commands (command : PyStr) (session_id session_base_path : Option PyStr) :
    Bool :=
  if command = "session info".data ∧ pyTruthy session_id then true
  else if command = "session list".data ∧ pyTruthy session_base_path then true
  else if pyStartsWith command "session ".data then true
  else false

/-- Embedding of `handle_shell_command` (`strands.py:43`): echo the command,
invoke the shell tool, and report (not propagate) an exception from it. -/
def handle_shell_command (shellRaises : PyStr → Bool) (command : PyStr) : List Event :=
  Event.echoShell command ::
    (if shellRaises command then [Event.shellCall command, Event.shellError command]
     else [Event.shellCall command])

/-- One agent turn of the loop body (`strands.py:96`): optional retrieval,
welcome refresh into the system prompt, the agent call, and — when a
knowledge base is configured and the agent call returned — the store of the
exchange.  An exception from the agent call lands in the per-turn handler. -/
def agentTurn (env : LoopEnv) (input : PyStr) : List Event :=
  (if pyTruthy env.knowledge_base_id then [Event.retrieve input] else []) ++
    Event.welcomeView ::
      (if env.agentRaises input then [Event.agentQuery input, Event.turnError]
       else
         Event.agentQuery input ::
           (if pyTruthy env.knowledge_base_id then [Event.storeKB input] else []))

/-- Embedding of the `while True` loop of `execute_interactive_mode`
(`strands.py:77`): the event trace a given input sequence produces. -/
def runLoop (env : LoopEnv) : List PyStr → List Event
  | [] => [Event.promptNL, Event.goodbye]
  | input :: rest =>
    Event.promptNL ::
      (if pyLower input = "exit".data ∨ pyLower input = "quit".data then
        [Event.goodbye]
      else if pyStartsWith input "!".data then
        let command := pyStrip (input.drop 1)
        if handle_session_commands command env.session_id env.session_base_path then
          Event.sessionCmd command :: runLoop env rest
        else
          handle_shell_command env.shellRaises command ++ runLoop env rest
      else if !(pyStrip input).isEmpty then
        agentTurn env input ++ runLoop env rest
      else
        runLoop env rest)

/-- Embedding of `execute_interactive_mode` (`strands.py:57`): the startup
welcome display, the resumed-session history display, then the loop. -/
def execute_interactive_mode (env : LoopEnv) (session_manager : Option FileSessionManager)
    (is_resuming : Bool) (inputs : List PyStr) : List Event :=
  (Event.welcomeView ::
      (if env.welcomeOk then [Event.renderWelcome env.welcomeText] else [])) ++
    (if is_resuming ∧ session_manager.isSome ∧ pyTruthy env.session_id then
      [Event.history (env.session_id.getD [])]
    else []) ++
    runLoop env inputs

/-- Number of agent queries issued in a trace. -/
def countAgentQueries (tr : List Event) : Nat :=
  (tr.filter (fun e => match e with | Event.agentQuery _ => true | _ => false)).length

/-! ## MCP connection initialization (`utils/mcp_utils.py`)

One configuration dict is modelled by `MCPConfig` (absent keys = `none`).
`urllib.parse.urlparse(...).hostname` is Python standard-library code, not
part of this repository; it is abstracted as a parameter `hostOf` returning
`Except Unit (Option PyStr)` (exception, no hostname, or a hostname — the
`try`/`except` around the parse maps an exception to the `mcp_sse_<i>` id).
The outcomes of the two `agent.tool.mcp_client` calls the loop can make for
the i-th configuration — the connect call, and the auto-load-tools call that
runs inside the same `try` after a successful connect — are likewise oracle
parameters `outcome` and `loadOutcome`. -/

/-- Decimal rendering of a list index, as Python interpolates it. -/
def natToStr (n : Nat) : PyStr := Nat.toDigits 10 n

/-- One MCP server configuration (absent dict keys are `none`); the
`auto_load_tools` key defaults to true when absent
(`config.get("auto_load_tools", True)`, `mcp_utils.py:143`). -/
structure MCPConfig where
  connection_id : Option PyStr
  transport : Option PyStr
  command : Option PyStr
  server_url : Option PyStr
  auto_load_tools : Option Bool
deriving DecidableEq

/-- Outcome of one `agent.tool.mcp_client` call: a reported success status,
a reported non-success status, or a raised exception. -/
inductive ConnectOutcome where
  | success
  | failure
  | raised
deriving DecidableEq

/-- The auto-generated connection id for the configuration at position `i`
(`mcp_utils.py:94`): for stdio, from the command's basename with dots
replaced; for any other transport, from the parsed hostname (dots and dashes
replaced), `server` when the url has no hostname, and `mcp_sse_<i>` when the
parse raises. -/
def autoConnectionId (hostOf : PyStr → Except Unit (Option PyStr)) (cfg : MCPConfig)
    (i : Nat) : PyStr :=
  let transport := cfg.transport.getD "stdio".data
  if transport = "stdio".data then
    let command := cfg.command.getD "unknown".data
    "mcp_".data ++ pyReplaceChar (pyBasename command) '.' '_' ++ "_".data ++ natToStr i
  else
    match hostOf (cfg.server_url.getD []) with
    | Except.error _ => "mcp_sse_".data ++ natToStr i
    | Except.ok h =>
      let host := match h with
        | none => "server".data
        | some s => if s.isEmpty then "server".data else s
      "mcp_".data ++ pyReplaceChar (pyReplaceChar host '.' '_') '-' '_' ++ "_".data ++ natToStr i

/-- The connection id the i-th configuration ends up keyed under: the
explicit `connection_id` when truthy, else the auto-generated one. -/
def resolvedConnectionId (hostOf : PyStr → Except Unit (Option PyStr)) (cfg : MCPConfig)
    (i : Nat) : PyStr :=
  if pyTruthy cfg.connection_id then cfg.connection_id.getD []
  else autoConnectionId hostOf cfg i

/-- Python dict assignment `results[k] = v` on an insertion-ordered
association list: overwrite in place if the key exists, else append. -/
def dictInsert (m : List (PyStr × Bool)) (k : PyStr) (v : Bool) : List (PyStr × Bool) :=
  if m.any (fun p => decide (p.1 = k)) then
    m.map (fun p => if p.1 = k then (k, v) else p)
  else m ++ [(k, v)]

/-- The Boolean recorded for one configuration (`mcp_utils.py:117-159`): a
raised connect call is caught and records `False` (line 159); a reported
connect failure records `False` (line 155); after a reported connect success,
when `auto_load_tools` (default true) is enabled the `load_tools` call runs
inside the same `try` before `results[id] = True` (lines 143-150), so an
exception raised there also lands in the handler and records `False`, while
a non-success load status is only printed and `True` is still recorded. -/
def mcpRecordedValue (cfg : MCPConfig) (connect load : ConnectOutcome) : Bool :=
  match connect with
  | ConnectOutcome.raised => false
  | ConnectOutcome.failure => false
  | ConnectOutcome.success =>
    if cfg.auto_load_tools.getD true then
      match load with
      | ConnectOutcome.raised => false
      | _ => true
    else true

/-- The `results` dict built by the loop of `initialize_mcp_connections`
from position `i` on. -/
def initMCPAux (hostOf : PyStr → Except Unit (Option PyStr))
    (outcome loadOutcome : Nat → ConnectOutcome) :
    Nat → List MCPConfig → List (PyStr × Bool) → List (PyStr × Bool)
  | _, [], acc => acc
  | i, cfg :: rest, acc =>
    let cid := resolvedConnectionId hostOf cfg i
    let ok := mcpRecordedValue cfg (outcome i) (loadOutcome i)
    initMCPAux hostOf outcome loadOutcome (i + 1) rest (dictInsert acc cid ok)

/-- Embedding of `initialize_mcp_connections` (`mcp_utils.py:79`): the
returned connection-id-to-success mapping, as an insertion-ordered
association list. -/
def initialize_mcp_connections (hostOf : PyStr → Except Unit (Option PyStr))
    (outcome loadOutcome : Nat → ConnectOutcome) (configs : List MCPConfig) :
    List (PyStr × Bool) :=
  initMCPAux hostOf outcome loadOutcome 0 configs []

/-- The connection ids the configurations from position `i` on resolve to. -/
def mcpKeys (hostOf : PyStr → Except Unit (Option PyStr)) :
    Nat → List MCPConfig → List PyStr
  | _, [] => []
  | i, cfg :: rest => resolvedConnectionId hostOf cfg i :: mcpKeys hostOf (i + 1) rest

/-- The per-configuration result entries (id, recorded value) from position
`i` on, with no dict-overwrite semantics. -/
def mcpExpected (hostOf : PyStr → Except Unit (Option PyStr))
    (outcome loadOutcome : Nat → ConnectOutcome) :
    Nat → List MCPConfig → List (PyStr × Bool)
  | _, [] => []
  | i, cfg :: rest =>
    (resolvedConnectionId hostOf cfg i,
     mcpRecordedValue cfg (outcome i) (loadOutcome i)) ::
      mcpExpected hostOf outcome loadOutcome (i + 1) rest

/-! ## Concrete instances used by counterexamples and witnesses -/

/-- A base directory holding one subdirectory `session_..z`: prefixed, but
its stripped remainder `..z` fails `validate_session_id`. -/
def exDotStore : SessionStore :=
  ⟨some [⟨"session_..z".data, true, ⟨true, 0, none⟩⟩], false, false⟩

/-- Entries of a base directory with two valid sessions (listed out of
order), one non-prefixed directory, one prefixed plain file, and one prefixed
directory with an invalid stripped id. -/
def exListEntries : List BaseEntry :=
  [⟨"session_b2".data, true, ⟨true, 0, none⟩⟩,
   ⟨"junk".data, true, ⟨true, 0, none⟩⟩,
   ⟨"session_a1".data, true, ⟨true, 0, none⟩⟩,
   ⟨"session_c3".data, false, ⟨true, 0, none⟩⟩,
   ⟨"session_.bad".data, true, ⟨true, 0, none⟩⟩]

/-- The store over `exListEntries`. -/
def exListStore : SessionStore := ⟨some exListEntries, false, false⟩

/-- A store with one existing session `session_abc` (marker file present). -/
def exAbcStore : SessionStore :=
  ⟨some [⟨"session_abc".data, true, ⟨true, 7, none⟩⟩], false, false⟩

/-- A session store rooted at a base path holding the single session `s1`
with the given `agents/` listing. -/
def mkSessionStore (agents : Option (List AgentEntry)) : SessionStore :=
  ⟨some [⟨sessionDirName "s1".data, true, ⟨true, 5, agents⟩⟩], false, false⟩

/-- The transparent `FileSessionManager` constructor: the backend stores the
id it was given. -/
def exMkMgr (session_id storage_dir : PyStr) : FileSessionManager :=
  ⟨session_id, storage_dir⟩

/-- A loop environment with no knowledge base, no session management, a
successful welcome probe, and no raising shell commands or agent queries. -/
def exEnv : LoopEnv :=
  ⟨none, none, none, true, "hi there".data, fun _ => false, fun _ => false⟩

/-- A hostname oracle for MCP tests (never consulted for stdio configs). -/
def exHost (url : PyStr) : Except Unit (Option PyStr) := Except.ok (some url)

/-- Connect outcomes: position 0 succeeds, every other position fails. -/
def exOutcome (i : Nat) : ConnectOutcome :=
  if i = 0 then ConnectOutcome.success else ConnectOutcome.failure

/-- Connect outcomes: every position reports success. -/
def exConnOk (_ : Nat) : ConnectOutcome := ConnectOutcome.success

/-- Load-tools outcomes: every load call reports success. -/
def exLoadOk (_ : Nat) : ConnectOutcome := ConnectOutcome.success

/-- Load-tools outcomes: every load call raises. -/
def exLoadRaise (_ : Nat) : ConnectOutcome := ConnectOutcome.raised

/-- First stdio configuration with an explicit connection id `a`. -/
def exCfgA : MCPConfig :=
  ⟨some "a".data, some "stdio".data, some "x.js".data, none, none⟩

/-- Second stdio configuration, also with explicit connection id `a`. -/
def exCfgA2 : MCPConfig :=
  ⟨some "a".data, some "stdio".data, some "y.js".data, none, none⟩

/-- A stdio configuration with no explicit id, command `node/alpha.js`. -/
def exCfgAuto1 : MCPConfig :=
  ⟨none, some "stdio".data, some "node/alpha.js".data, none, none⟩

/-- A stdio configuration with no explicit id, command `beta.js`. -/
def exCfgAuto2 : MCPConfig :=
  ⟨none, some "stdio".data, some "beta.js".data, none, none⟩


/-- Two well-formed message files. -/
def exGood : List FileEntry := [⟨"m1.json".data, true⟩, ⟨"m2.json".data, true⟩]

/-- Distractors in a messages directory: a text file, a directory whose name
ends in `.json`, and a hidden file named exactly `.json` (whose pathlib
suffix is empty). -/
def exJunk : List FileEntry :=
  [⟨"notes.txt".data, true⟩, ⟨"sub.json".data, false⟩, ⟨".json".data, true⟩]

/-! ## Theorems -/

/-- Any of the conditions the spec lists makes `validate_session_id`
reject. -/
theorem validate_session_id_false_of (s : PyStr)
    (h : pyContains s "/".data = true ∨ pyContains s "\\".data = true ∨
      pyContains s "..".data = true ∨ pyContains s [Char.ofNat 0] = true ∨
      pyStartsWith s ".".data = true ∨ s = [] ∨ 255 < s.length) :
    validate_session_id s = false := by
  unfold validate_session_id
  split_ifs with h1 h2 h3
  any_goals rfl
  exfalso
  simp only [Bool.or_eq_true, not_or] at h2 h3
  obtain ⟨⟨⟨hA, hB⟩, hC⟩, hD⟩ := h2
  obtain ⟨hE, hF⟩ := h3
  rcases h with h | h | h | h | h | h | h
  · exact hA h
  · exact hB h
  · exact hC h
  · exact hD h
  · exact hE h
  · exact h1 (by simp [h])
  · exact hF (by simpa using h)

/-- C1: for every session id that contains `/`, `\`, `..` or a NUL byte, or
starts with `.`, or is empty, or is longer than 255 characters, and for every
filesystem state and base path, `session_exists` returns false and its probe
trace is empty — the validation short-circuits before any filesystem
access. -/
theorem C1_session_exists_invalid_id_no_fs (st : SessionStore) (s : PyStr)
    (bp : Option PyStr)
    (h : pyContains s "/".data = true ∨ pyContains s "\\".data = true ∨
      pyContains s "..".data = true ∨ pyContains s [Char.ofNat 0] = true ∨
      pyStartsWith s ".".data = true ∨ s = [] ∨ 255 < s.length) :
    session_exists_t st s bp = (false, []) ∧ session_exists st s bp = false := by
  have hv := validate_session_id_false_of s h
  have ht : session_exists_t st s bp = (false, []) := by
    unfold session_exists_t
    simp [hv]
  exact ⟨ht, by unfold session_exists; rw [ht]⟩

/-- Witness for C1 at the traversal id `../etc` against a store that does
hold a session. -/
theorem C1_session_exists_invalid_id_no_fs_witness :
    session_exists_t exAbcStore "../etc".data (some "/tmp/s".data) = (false, []) ∧
    session_exists exAbcStore "../etc".data (some "/tmp/s".data) = false :=
  C1_session_exists_invalid_id_no_fs exAbcStore "../etc".data (some "/tmp/s".data)
    (Or.inl (by decide))

/-- C2: `store_in_kb` with blank content, or with no resolvable knowledge-base
id, returns an error result and spawns no background thread; with non-blank
content and a resolvable id it spawns exactly one background thread and
returns a success result determined by validation alone. -/
theorem C2_store_in_kb_sync_validation :
    (∀ env ts content title kb, pyStrip content = [] →
      (store_in_kb env ts content title kb).1.status = "error".data ∧
      (store_in_kb env ts content title kb).2 = []) ∧
    (∀ ts content title,
      (store_in_kb none ts content title none).1.status = "error".data ∧
      (store_in_kb none ts content title none).2 = []) ∧
    (∀ env ts content title kb, pyStrip content ≠ [] →
      pyTruthy (pyOrElse kb env) = true →
      (store_in_kb env ts content title kb).1.status = "success".data ∧
      (store_in_kb env ts content title kb).2.length = 1) := by
  refine ⟨?_, ?_, ?_⟩
  · intro env ts content title kb h
    have hb : (content.isEmpty || (pyStrip content).isEmpty) = true := by
      simp [h]
    simp only [store_in_kb, hb, if_true]
    exact ⟨by trivial, by trivial⟩
  · intro ts content title
    by_cases hb : (content.isEmpty || (pyStrip content).isEmpty) = true
    · simp only [store_in_kb, hb, if_true]
      exact ⟨by trivial, by trivial⟩
    · simp only [store_in_kb, Bool.not_eq_true] at hb ⊢
      simp only [hb, Bool.false_eq_true, if_false]
      have hkb : (!pyTruthy (pyOrElse none none)) = true := by decide
      simp only [hkb, if_true]
      exact ⟨by trivial, by trivial⟩
  · intro env ts content title kb h1 h2
    have hc : content ≠ [] := by
      intro hc
      exact h1 (by rw [hc]; rfl)
    have hce : content.isEmpty = false := by
      cases hx : content.isEmpty
      · rfl
      · exact absurd (List.isEmpty_iff.mp hx) hc
    have hse : (pyStrip content).isEmpty = false := by
      cases hx : (pyStrip content).isEmpty
      · rfl
      · exact absurd (List.isEmpty_iff.mp hx) h1
    have hb : (content.isEmpty || (pyStrip content).isEmpty) = false := by
      simp [hce, hse]
    have hkb : (!pyTruthy (pyOrElse kb env)) = false := by
      simp [h2]
    simp only [store_in_kb, hb, Bool.false_eq_true, if_false, hkb]
    exact ⟨by trivial, by trivial⟩

/-- Witness for C2: blank content errors without a thread, unresolvable id
errors without a thread, and a valid call spawns exactly one thread. -/
theorem C2_store_in_kb_sync_validation_witness :
    ((store_in_kb (some "KB1".data) "ts".data "   ".data none none).1.status = "error".data ∧
      (store_in_kb (some "KB1".data) "ts".data "   ".data none none).2 = []) ∧
    ((store_in_kb none "ts".data "hello".data none none).1.status = "error".data ∧
      (store_in_kb none "ts".data "hello".data none none).2 = []) ∧
    ((store_in_kb (some "KB1".data) "ts".data "hello".data none none).1.status = "success".data ∧
      (store_in_kb (some "KB1".data) "ts".data "hello".data none none).2.length = 1) :=
  ⟨C2_store_in_kb_sync_validation.1 (some "KB1".data) "ts".data "   ".data none none (by decide),
   C2_store_in_kb_sync_validation.2.1 "ts".data "hello".data none,
   C2_store_in_kb_sync_validation.2.2 (some "KB1".data) "ts".data "hello".data none none
     (by decide) (by decide)⟩

/-- C3: the session lifecycle setup returns `(none, none, false)` when no
base path is given; a supplied (truthy) session id sets `is_resuming` exactly
when `session_exists` holds and is carried unchanged into the backend
constructor (and reported back when no handle is built); and whenever a
handle is built, the resolved session id is the handle's own reported id. -/
theorem C3_setup_session_management_contract :
    (∀ mkMgr gen st sid, setup_session_management mkMgr gen st sid none = (none, none, false)) ∧
    (∀ mkMgr gen st s bp, s ≠ [] → pyTruthy bp = true →
      (setup_session_management mkMgr gen st (some s) bp).2.2 = session_exists st s bp ∧
      (setup_session_management mkMgr gen st (some s) bp).1 =
        create_session_manager mkMgr gen (some s) bp ∧
      ((setup_session_management mkMgr gen st (some s) bp).1 = none →
        (setup_session_management mkMgr gen st (some s) bp).2.1 = some s)) ∧
    (∀ mkMgr gen st sid bp m,
      (setup_session_management mkMgr gen st sid bp).1 = some m →
      (setup_session_management mkMgr gen st sid bp).2.1 = some m.session_id) := by
  refine ⟨?_, ?_, ?_⟩
  · intro mkMgr gen st sid
    rfl
  · intro mkMgr gen st s bp h1 hbp
    have hts : pyTruthy (some s) = true := by
      simp [pyTruthy, h1]
    have hbp' : (!pyTruthy bp) = false := by simp [hbp]
    simp only [setup_session_management, hbp', Bool.false_eq_true, if_false, hts, if_true]
    cases hcm : create_session_manager mkMgr gen (some s) bp with
    | none => simp [hcm]
    | some m => simp [hcm]
  · intro mkMgr gen st sid bp m h
    by_cases hb : pyTruthy bp = true
    · have hb' : (!pyTruthy bp) = false := by simp [hb]
      simp only [setup_session_management, hb', Bool.false_eq_true, if_false] at h ⊢
      cases hcm : create_session_manager mkMgr gen
          (if pyTruthy sid = true then sid else none) bp with
      | none => simp [hcm] at h
      | some m' =>
        simp only [hcm] at h ⊢
        simp at h
        simp [h]
    · have hb' : (!pyTruthy bp) = true := by simp [hb]
      simp [setup_session_management, hb'] at h

/-- Witness for C3: resuming an existing session `abc` reports
`is_resuming = true` and resolves to the handle's reported id `abc`. -/
theorem C3_setup_session_management_contract_witness :
    (setup_session_management exMkMgr "gen1".data exAbcStore (some "abc".data)
        (some "/tmp/s".data)).2.2 = true ∧
    (setup_session_management exMkMgr "gen1".data exAbcStore (some "abc".data)
        (some "/tmp/s".data)).2.1 = some "abc".data := by
  have h := C3_setup_session_management_contract.2.1 exMkMgr "gen1".data exAbcStore
    "abc".data (some "/tmp/s".data) (by decide) (by decide)
  refine ⟨?_, ?_⟩
  · rw [h.1]
    decide
  · exact C3_setup_session_management_contract.2.2 exMkMgr "gen1".data exAbcStore
      (some "abc".data) (some "/tmp/s".data) ⟨"abc".data, "/tmp/s".data⟩ (by decide)

/-- Totality of the lexicographic string order. -/
theorem pyLe_total (a b : PyStr) : pyLeP a b ∨ pyLeP b a := by
  unfold pyLeP
  induction a generalizing b with
  | nil => left; rfl
  | cons x xs ih =>
    cases b with
    | nil => right; rfl
    | cons y ys =>
      rcases lt_trichotomy x y with h | h | h
      · left; simp [pyLe, h]
      · subst h
        rcases ih ys with h2 | h2
        · left; simp [pyLe, lt_irrefl, h2]
        · right; simp [pyLe, lt_irrefl, h2]
      · right; simp [pyLe, h]

/-- Transitivity of the lexicographic string order. -/
theorem pyLe_trans (a b c : PyStr) (h1 : pyLeP a b) (h2 : pyLeP b c) : pyLeP a c := by
  unfold pyLeP at h1 h2 ⊢
  induction a generalizing b c with
  | nil => rfl
  | cons x xs ih =>
    cases b with
    | nil => simp [pyLe] at h1
    | cons y ys =>
      cases c with
      | nil => simp [pyLe] at h2
      | cons z zs =>
        by_cases hxy : x < y
        · by_cases hyz : y < z
          · simp [pyLe, lt_trans hxy hyz]
          · by_cases hyz' : y = z
            · subst hyz'; simp [pyLe, hxy]
            · simp [pyLe, hyz, hyz'] at h2
        · by_cases hxy' : x = y
          · subst hxy'
            simp only [pyLe, lt_irrefl, if_false, if_pos rfl] at h1
            by_cases hxz : x < z
            · simp [pyLe, hxz]
            · by_cases hxz' : x = z
              · subst hxz'
                simp only [pyLe, lt_irrefl, if_false, if_pos rfl] at h2 ⊢
                exact ih ys zs h1 h2
              · simp [pyLe, hxz, hxz'] at h2
          · simp [pyLe, hxy, hxy'] at h1

/-- Sorting with `pySorted` permutes its input. -/
theorem pySorted_perm (l : List PyStr) : List.Perm (pySorted l) l :=
  List.perm_insertionSort pyLeP l

/-- The output of `pySorted` is sorted under the lexicographic order. -/
theorem pySorted_sorted (l : List PyStr) : (pySorted l).Pairwise pyLeP := by
  letI : IsTotal PyStr pyLeP := ⟨pyLe_total⟩
  letI : IsTrans PyStr pyLeP := ⟨fun a b c => pyLe_trans a b c⟩
  exact List.sorted_insertionSort pyLeP l

/-- Membership is preserved by `pySorted`. -/
theorem mem_pySorted {a : PyStr} {l : List PyStr} : a ∈ pySorted l ↔ a ∈ l :=
  (pySorted_perm l).mem_iff

/-- Everything `selectSessionIds` yields passes `validate_session_id`. -/
theorem mem_selectSessionIds_valid {s : PyStr} {es : List BaseEntry}
    (h : s ∈ selectSessionIds es) : validate_session_id s = true := by
  unfold selectSessionIds at h
  simp only [List.mem_filterMap] at h
  obtain ⟨e, _, he⟩ := h
  by_cases h1 : (e.isDir && pyStartsWith e.name sessionPfx) = true
  · simp only [h1, if_true] at he
    by_cases h2 : validate_session_id (e.name.drop sessionPfx.length) = true
    · simp only [h2, if_true, Option.some.injEq] at he
      rw [← he]
      exact h2
    · simp [h2] at he
  · simp [h1] at he

/-- C4 counterexample: a directory `session_..z` carries the `session_`
prefix, its stripped remainder is `..z`, yet the listing is empty — the
stripped name is not returned, contradicting the claim that exactly the
prefix-stripped subdirectory names are returned. -/
theorem C4_list_sessions_counterexample :
    pyStartsWith "session_..z".data sessionPfx = true ∧
    ("session_..z".data).drop sessionPfx.length = "..z".data ∧
    list_available_sessions exDotStore (some "/tmp/s".data) = [] ∧
    "..z".data ∉ list_available_sessions exDotStore (some "/tmp/s".data) := by
  decide

/-- C4 (amended): `list_available_sessions` returns the empty sequence when
the base directory is absent or unreadable, and otherwise a lexicographically
sorted permutation of the stripped names of the `session_`-prefixed
subdirectories whose stripped remainder is a valid session id. -/
theorem C4_list_sessions_amended (st : SessionStore) (bp : Option PyStr)
    (h1 : pyTruthy bp = true) (h2 : validate_session_path (bp.getD []) = true) :
    (st.root = none → list_available_sessions st bp = []) ∧
    (st.iterFails = true → list_available_sessions st bp = []) ∧
    (∀ es, st.root = some es → st.iterFails = false →
      List.Perm (list_available_sessions st bp) (selectSessionIds es) ∧
      (list_available_sessions st bp).Pairwise pyLeP) := by
  have hg : (!pyTruthy bp || !validate_session_path (bp.getD [])) = false := by
    simp [h1, h2]
  refine ⟨?_, ?_, ?_⟩
  · intro hroot
    simp [list_available_sessions, hg, hroot]
  · intro hiter
    unfold list_available_sessions
    simp only [hg, Bool.false_eq_true, if_false]
    cases hroot : st.root with
    | none => rfl
    | some es => simp [hiter, pySorted]
  · intro es hroot hiter
    have hl : list_available_sessions st bp = pySorted (selectSessionIds es) := by
      simp [list_available_sessions, hg, hroot, hiter]
    rw [hl]
    exact ⟨pySorted_perm _, pySorted_sorted _⟩

/-- Witness for the amended C4 over a mixed directory listing; the listing is
a sorted permutation of the valid stripped ids, here concretely
`[a1, b2]`. -/
theorem C4_list_sessions_amended_witness :
    (List.Perm (list_available_sessions exListStore (some "/tmp/s".data))
      (selectSessionIds exListEntries) ∧
     (list_available_sessions exListStore (some "/tmp/s".data)).Pairwise pyLeP) ∧
    list_available_sessions exListStore (some "/tmp/s".data) = ["a1".data, "b2".data] :=
  ⟨(C4_list_sessions_amended exListStore (some "/tmp/s".data) (by decide)
      (by decide)).2.2 exListEntries rfl rfl,
   by decide⟩

/-- C10: a stripped directory name that fails `validate_session_id` is never
returned by `list_available_sessions`, whatever the filesystem and base
path. -/
theorem C10_invalid_ids_never_listed (st : SessionStore) (bp : Option PyStr) (s : PyStr)
    (h : validate_session_id s = false) :
    s ∉ list_available_sessions st bp := by
  intro hmem
  unfold list_available_sessions at hmem
  split at hmem
  · simp at hmem
  · split at hmem
    · simp at hmem
    · split at hmem
      · simp [pySorted] at hmem
      · rw [mem_pySorted] at hmem
        have hv := mem_selectSessionIds_valid hmem
        rw [h] at hv
        exact absurd hv (by simp)

/-- Witness for C10: the invalid stripped id `.bad` is omitted from the
listing of a directory that contains `session_.bad`. -/
theorem C10_invalid_ids_never_listed_witness :
    ".bad".data ∉ list_available_sessions exListStore (some "/tmp/s".data) :=
  C10_invalid_ids_never_listed exListStore (some "/tmp/s".data) ".bad".data (by decide)

/-- C6: `get_session_info` is absent unless `session_exists` holds; on the
store holding the single session `s1` it reports exactly the `.json` message
count computed over `agents/*/messages/`; and for a messages directory made
of well-formed `.json` files plus arbitrary distractors, the report is
exactly the number of well-formed files — zero for a fresh session. -/
theorem C6_get_session_info_message_count :
    (∀ st sid bp, session_exists st sid bp = false → get_session_info st sid bp = none) ∧
    (∀ agents, (get_session_info (mkSessionStore agents) "s1".data
        (some "/tmp/s".data)).map SessionInfo.total_messages =
      some (totalMessages agents)) ∧
    (∀ good junk : List FileEntry,
      (∀ f ∈ good, f.isFile = true ∧ pySuffix f.name = ".json".data) →
      (∀ f ∈ junk, ¬(f.isFile = true ∧ pySuffix f.name = ".json".data)) →
      (get_session_info
          (mkSessionStore (some [⟨"agentA".data, true, some (good ++ junk)⟩]))
          "s1".data (some "/tmp/s".data)).map SessionInfo.total_messages =
        some good.length) := by
  refine ⟨?_, ?_, ?_⟩
  · intro st sid bp h
    unfold get_session_info
    split_ifs with h1 h2 h3 <;>
      first
      | rfl
      | exact absurd (by rw [h]; rfl) h2
  · intro agents
    rfl
  · intro good junk hg hj
    have hred : (get_session_info
        (mkSessionStore (some [⟨"agentA".data, true, some (good ++ junk)⟩]))
        "s1".data (some "/tmp/s".data)).map SessionInfo.total_messages =
        some (((good ++ junk).filter
          (fun f => f.isFile && decide (pySuffix f.name = ".json".data))).length) := rfl
    rw [hred]
    congr 1
    rw [List.filter_append]
    have h1 : good.filter
        (fun f => f.isFile && decide (pySuffix f.name = ".json".data)) = good := by
      apply List.filter_eq_self.mpr
      intro f hf
      obtain ⟨ha, hb⟩ := hg f hf
      simp [ha, hb]
    have h2 : junk.filter
        (fun f => f.isFile && decide (pySuffix f.name = ".json".data)) = [] := by
      apply List.filter_eq_nil_iff.mpr
      intro f hf
      have hn := hj f hf
      simp only [Bool.and_eq_true, decide_eq_true_iff]
      exact fun hc => hn ⟨hc.1, hc.2⟩
    rw [h1, h2]
    simp

/-- Witness for C6: a fresh session reports zero messages; two `.json` files
among three distractors report exactly two. -/
theorem C6_get_session_info_message_count_witness :
    (get_session_info (mkSessionStore none) "s1".data (some "/tmp/s".data)).map
        SessionInfo.total_messages = some 0 ∧
    (get_session_info (mkSessionStore (some [⟨"agentA".data, true, some (exGood ++ exJunk)⟩]))
        "s1".data (some "/tmp/s".data)).map SessionInfo.total_messages = some 2 :=
  ⟨C6_get_session_info_message_count.2.1 none,
   C6_get_session_info_message_count.2.2 exGood exJunk (by decide) (by decide)⟩

/-- Under a resolvable knowledge-base id and non-blank content, with a
non-empty source list none of whose entries is of type `CUSTOM`, the
background worker's whole trace is a single logged error. -/
theorem store_in_kb_background_no_custom (env : Option PyStr) (ds : DataSource)
    (rest : List DataSource) (ingestFails : Bool) (content : PyStr)
    (title kb : Option PyStr) (ts u8 : PyStr)
    (h1 : pyTruthy (pyOrElse kb env) = true) (h2 : pyStrip content ≠ [])
    (h4 : ∀ d ∈ ds :: rest, d.dsType ≠ "CUSTOM".data) :
    ∃ m, store_in_kb_background env (ds :: rest) false ingestFails content title kb ts u8 =
      [BgAction.logError m] := by
  have hkb : (!pyTruthy (pyOrElse kb env)) = false := by simp [h1]
  have hc : content ≠ [] := fun hc => h2 (by rw [hc]; rfl)
  have hce : content.isEmpty = false := by
    cases hx : content.isEmpty
    · rfl
    · exact absurd (List.isEmpty_iff.mp hx) hc
  have hse : (pyStrip content).isEmpty = false := by
    cases hx : (pyStrip content).isEmpty
    · rfl
    · exact absurd (List.isEmpty_iff.mp hx) h2
  have hfind : (ds :: rest).find? (fun d => decide (d.dsType = "CUSTOM".data)) = none := by
    apply List.find?_eq_none.mpr
    intro x hx
    simp [h4 x hx]
  simp only [store_in_kb_background, hkb, Bool.false_eq_true, if_false, hce, hse,
    Bool.or_self, List.isEmpty_cons, hfind, List.isEmpty_nil, if_true]
  by_cases hid : ds.dataSourceId.isEmpty
  · exact ⟨_, by simp [hid]; rfl⟩
  · have hds : (ds.dsType = "CUSTOM".data) = False := by
      simp [h4 ds (List.mem_cons_self ds rest)]
    by_cases hs3 : ds.dsType = "S3".data
    · exact ⟨_, by simp [hid, hds, hs3]; rfl⟩
    · exact ⟨_, by simp [hid, hds, hs3]; rfl⟩

/-- C5: when the data-source list is non-empty but holds no `CUSTOM` source,
the background worker makes no ingestion call and logs an error; and in
general an ingestion call is only ever made when a `CUSTOM` data source is
present in the list. -/
theorem C5_background_ingests_only_custom :
    (∀ env content title kb ts u8 ingestFails (sources : List DataSource),
      pyTruthy (pyOrElse kb env) = true →
      pyStrip content ≠ [] →
      sources ≠ [] →
      (∀ ds ∈ sources, ds.dsType ≠ "CUSTOM".data) →
      ((∀ k d doc, BgAction.ingest k d doc ∉
          store_in_kb_background env sources false ingestFails content title kb ts u8) ∧
        (∃ m, BgAction.logError m ∈
          store_in_kb_background env sources false ingestFails content title kb ts u8))) ∧
    (∀ env (sources : List DataSource) listFails ingestFails content title kb ts u8 k d doc,
      BgAction.ingest k d doc ∈
        store_in_kb_background env sources listFails ingestFails content title kb ts u8 →
      ∃ ds ∈ sources, ds.dsType = "CUSTOM".data) := by
  constructor
  · intro env content title kb ts u8 ingestFails sources h1 h2 h3 h4
    obtain ⟨ds, rest, rfl⟩ : ∃ d r, sources = d :: r := by
      cases sources with
      | nil => exact absurd rfl h3
      | cons d r => exact ⟨d, r, rfl⟩
    obtain ⟨m, hm⟩ := store_in_kb_background_no_custom env ds rest ingestFails content
      title kb ts u8 h1 h2 h4
    rw [hm]
    exact ⟨fun k d doc => by simp, ⟨m, by simp⟩⟩
  · intro env sources listFails ingestFails content title kb ts u8 k d doc hmem
    by_cases hkb : (!pyTruthy (pyOrElse kb env)) = true
    · simp [store_in_kb_background, hkb] at hmem
    · have hkb' : (!pyTruthy (pyOrElse kb env)) = false := by
        cases hx : (!pyTruthy (pyOrElse kb env))
        · rfl
        · exact absurd hx hkb
      by_cases hce : (content.isEmpty || (pyStrip content).isEmpty) = true
      · simp [store_in_kb_background, hkb', hce] at hmem
      · have hce' : (content.isEmpty || (pyStrip content).isEmpty) = false := by
          cases hx : (content.isEmpty || (pyStrip content).isEmpty)
          · rfl
          · exact absurd hx hce
        by_cases hlf : listFails = true
        · simp [store_in_kb_background, hkb', hce', hlf] at hmem
        · have hlf' : listFails = false := by
            cases listFails
            · rfl
            · exact absurd rfl hlf
          by_cases hni : sources.isEmpty = true
          · simp [store_in_kb_background, hkb', hce', hlf', hni] at hmem
          · have hni' : sources.isEmpty = false := by
              cases hx : sources.isEmpty
              · rfl
              · exact absurd hx hni
            cases hf : sources.find? (fun ds => decide (ds.dsType = "CUSTOM".data)) with
            | some ds₀ =>
              refine ⟨ds₀, List.mem_of_find?_eq_some hf, ?_⟩
              have hp := List.find?_some hf
              simpa using hp
            | none =>
              exfalso
              obtain ⟨d0, r0, rfl⟩ : ∃ a b, sources = a :: b := by
                cases sources with
                | nil => simp at hni'
                | cons a b => exact ⟨a, b, rfl⟩
              have hd0 : ¬ d0.dsType = "CUSTOM".data := by
                have hq := List.find?_eq_none.mp hf d0 (List.mem_cons_self d0 r0)
                simpa using hq
              simp only [store_in_kb_background, hkb', Bool.false_eq_true, if_false,
                hce', hlf', hni', hf] at hmem
              by_cases hid : d0.dataSourceId.isEmpty
              · simp [hid] at hmem
              · by_cases hs3 : d0.dsType = "S3".data
                · simp [hid, hd0, hs3] at hmem
                · simp [hid, hd0, hs3] at hmem

/-- Witness for C5: with a single `S3` data source, no ingestion action
appears in the trace and an error is logged. -/
theorem C5_background_ingests_only_custom_witness :
    (∀ k d doc, BgAction.ingest k d doc ∉
      store_in_kb_background (some "KB1".data) [⟨"d1".data, "S3".data⟩] false false
        "hello".data none none "ts".data "u8".data) ∧
    (∃ m, BgAction.logError m ∈
      store_in_kb_background (some "KB1".data) [⟨"d1".data, "S3".data⟩] false false
        "hello".data none none "ts".data "u8".data) :=
  C5_background_ingests_only_custom.1 (some "KB1".data) "hello".data none none
    "ts".data "u8".data false [⟨"d1".data, "S3".data⟩] (by decide) (by decide)
    (by decide) (by decide)

/-- A string whose `strip` is empty consists of whitespace only. -/
theorem all_space_of_strip_nil {s : PyStr} (h : pyStrip s = []) :
    ∀ c ∈ s, isPySpace c = true := by
  unfold pyStrip at h
  rw [List.reverse_eq_nil_iff] at h
  have h2 : ∀ c ∈ (s.dropWhile isPySpace).reverse, isPySpace c = true :=
    List.dropWhile_eq_nil_iff.mp h
  have h3 : ∀ c ∈ s.dropWhile isPySpace, isPySpace c = true := by
    intro c hc
    exact h2 c (List.mem_reverse.mpr hc)
  intro c hc
  rw [← List.takeWhile_append_dropWhile (p := isPySpace) (l := s)] at hc
  rcases List.mem_append.mp hc with hc | hc
  · exact List.mem_takeWhile_imp hc
  · exact h3 c hc

/-- Lowercasing fixes whitespace characters. -/
theorem pyLowerChar_space {c : Char} (h : isPySpace c = true) : pyLowerChar c = c := by
  simp only [isPySpace, Bool.or_eq_true, decide_eq_true_iff] at h
  rcases h with ((((rfl | rfl) | rfl) | rfl) | rfl) | rfl <;> decide

/-- A whitespace-only line is not an exit command. -/
theorem blank_not_exit {s : PyStr} (h : pyStrip s = []) :
    ¬(pyLower s = "exit".data ∨ pyLower s = "quit".data) := by
  have hall := all_space_of_strip_nil h
  intro hx
  cases s with
  | nil => rcases hx with hx | hx <;> simp [pyLower] at hx
  | cons c t =>
    have hc : isPySpace c = true := hall c (List.mem_cons_self c t)
    have hfix : pyLowerChar c = c := pyLowerChar_space hc
    rcases hx with hx | hx <;>
    · simp only [pyLower, List.map_cons, List.cons.injEq] at hx
      rw [hfix] at hx
      rw [hx.1] at hc
      exact absurd hc (by decide)

/-- A whitespace-only line does not begin with `!`. -/
theorem blank_not_bang {s : PyStr} (h : pyStrip s = []) :
    pyStartsWith s "!".data = false := by
  have hall := all_space_of_strip_nil h
  cases s with
  | nil => rfl
  | cons c t =>
    have hc : isPySpace c = true := hall c (List.mem_cons_self c t)
    simp only [pyStartsWith, isPfx]
    by_cases hb : ('!' : Char) = c
    · rw [← hb] at hc
      exact absurd hc (by decide)
    · simp [hb]

/-- Every loop state prints the newline of the next prompt first. -/
theorem runLoop_head (env : LoopEnv) (l : List PyStr) :
    (runLoop env l).head? = some Event.promptNL := by
  cases l <;> rfl

/-- C7: a line whose lowercase form is exactly `exit` or `quit` renders the
goodbye and terminates the loop; a whitespace-only line is skipped without
any event; and the input sequence `[hello, exit]` with no knowledge base
issues exactly one agent query before the goodbye. -/
theorem C7_interactive_exit_blank_scenario :
    (∀ env input rest, (pyLower input = "exit".data ∨ pyLower input = "quit".data) →
      runLoop env (input :: rest) = [Event.promptNL, Event.goodbye]) ∧
    (∀ env input rest, pyStrip input = [] →
      runLoop env (input :: rest) = Event.promptNL :: runLoop env rest) ∧
    (execute_interactive_mode exEnv none false ["hello".data, "exit".data] =
      [Event.welcomeView, Event.renderWelcome "hi there".data, Event.promptNL,
       Event.welcomeView, Event.agentQuery "hello".data, Event.promptNL, Event.goodbye] ∧
      countAgentQueries (execute_interactive_mode exEnv none false
        ["hello".data, "exit".data]) = 1) := by
  refine ⟨?_, ?_, by decide, by decide⟩
  · intro env input rest h
    simp [runLoop, h]
  · intro env input rest h
    have h1 := blank_not_exit h
    have h2 := blank_not_bang h
    simp [runLoop, h1, h2, h]

/-- Witness for C7 at the concrete inputs `QUIT` (exit), `"   "` (blank) and
the `[hello, exit]` scenario. -/
theorem C7_interactive_exit_blank_scenario_witness :
    runLoop exEnv ["QUIT".data] = [Event.promptNL, Event.goodbye] ∧
    runLoop exEnv ["   ".data, "exit".data] =
      Event.promptNL :: runLoop exEnv ["exit".data] ∧
    countAgentQueries (execute_interactive_mode exEnv none false
      ["hello".data, "exit".data]) = 1 :=
  ⟨C7_interactive_exit_blank_scenario.1 exEnv "QUIT".data [] (by decide),
   C7_interactive_exit_blank_scenario.2.1 exEnv "   ".data ["exit".data] (by decide),
   C7_interactive_exit_blank_scenario.2.2.2⟩

/-- C8: a `!` line whose stripped remainder is not handled as a session
sub-command echoes the command, invokes the shell tool (reporting, not
propagating, an exception), issues no agent query, and continues to the next
read — whose prompt begins with the blank line. -/
theorem C8_shell_passthrough (env : LoopEnv) (input : PyStr) (rest : List PyStr)
    (h1 : pyStartsWith input "!".data = true)
    (h2 : ¬(pyLower input = "exit".data ∨ pyLower input = "quit".data))
    (h3 : handle_session_commands (pyStrip (input.drop 1)) env.session_id
      env.session_base_path = false) :
    runLoop env (input :: rest) =
      Event.promptNL ::
        (handle_shell_command env.shellRaises (pyStrip (input.drop 1)) ++
          runLoop env rest) ∧
    handle_shell_command env.shellRaises (pyStrip (input.drop 1)) =
      Event.echoShell (pyStrip (input.drop 1)) ::
        (if env.shellRaises (pyStrip (input.drop 1)) then
          [Event.shellCall (pyStrip (input.drop 1)),
           Event.shellError (pyStrip (input.drop 1))]
        else [Event.shellCall (pyStrip (input.drop 1))]) ∧
    countAgentQueries (Event.promptNL ::
      handle_shell_command env.shellRaises (pyStrip (input.drop 1))) = 0 ∧
    (runLoop env rest).head? = some Event.promptNL := by
  have h3' : handle_session_commands (pyStrip input.tail) env.session_id
      env.session_base_path = false := by
    rw [← List.drop_one]
    exact h3
  refine ⟨?_, rfl, ?_, runLoop_head env rest⟩
  · simp [runLoop, h1, h2, h3, h3']
  · cases hsr : env.shellRaises (pyStrip (input.drop 1)) <;>
    · rw [List.drop_one] at hsr
      simp [handle_shell_command, hsr, countAgentQueries]

/-- Witness for C8 at the line `!echo hi` followed by `exit`. -/
theorem C8_shell_passthrough_witness :
    runLoop exEnv ["!echo hi".data, "exit".data] =
      Event.promptNL ::
        (handle_shell_command exEnv.shellRaises (pyStrip ("!echo hi".data.drop 1)) ++
          runLoop exEnv ["exit".data]) ∧
    countAgentQueries (Event.promptNL ::
      handle_shell_command exEnv.shellRaises (pyStrip ("!echo hi".data.drop 1))) = 0 :=
  ⟨(C8_shell_passthrough exEnv "!echo hi".data ["exit".data] (by decide) (by decide)
      (by decide)).1,
   (C8_shell_passthrough exEnv "!echo hi".data ["exit".data] (by decide) (by decide)
      (by decide)).2.2.1⟩

/-- When the next keys are fresh for the accumulator and mutually distinct,
the results dict is the accumulator extended by one entry per
configuration. -/
theorem initMCPAux_eq_expected (hostOf : PyStr → Except Unit (Option PyStr))
    (outcome loadOutcome : Nat → ConnectOutcome) :
    ∀ (configs : List MCPConfig) (i : Nat) (acc : List (PyStr × Bool)),
      (∀ k ∈ mcpKeys hostOf i configs, acc.any (fun p => decide (p.1 = k)) = false) →
      (mcpKeys hostOf i configs).Nodup →
      initMCPAux hostOf outcome loadOutcome i configs acc =
        acc ++ mcpExpected hostOf outcome loadOutcome i configs := by
  intro configs
  induction configs with
  | nil =>
    intro i acc h hd
    simp [initMCPAux, mcpExpected]
  | cons cfg rest ih =>
    intro i acc h hd
    have hcid : acc.any
        (fun p => decide (p.1 = resolvedConnectionId hostOf cfg i)) = false :=
      h _ (by simp [mcpKeys])
    simp only [initMCPAux, mcpExpected]
    rw [dictInsert, hcid]
    simp only [Bool.false_eq_true, if_false]
    rw [ih (i + 1) _ ?_ ?_]
    · simp
    · intro k hk
      have h1 := h k (by simp [mcpKeys, hk])
      have hne : resolvedConnectionId hostOf cfg i ≠ k := by
        intro he
        have hmem : resolvedConnectionId hostOf cfg i ∈ mcpKeys hostOf (i + 1) rest :=
          he ▸ hk
        exact (List.nodup_cons.mp hd).1 hmem
      rw [List.any_append]
      simp [h1, hne]
    · exact (List.nodup_cons.mp hd).2

/-- One result entry per configuration in `mcpExpected`. -/
theorem mcpExpected_length (hostOf : PyStr → Except Unit (Option PyStr))
    (outcome loadOutcome : Nat → ConnectOutcome) :
    ∀ (i : Nat) (configs : List MCPConfig),
      (mcpExpected hostOf outcome loadOutcome i configs).length = configs.length := by
  intro i configs
  induction configs generalizing i with
  | nil => rfl
  | cons cfg rest ih => simp [mcpExpected, ih]

/-- C9 counterexample: two configurations sharing the explicit connection id
`a`, one connect succeeding and one failing (tool loads succeeding
throughout), produce a single-entry mapping — not one entry per
configuration, and the succeeding connect leaves no `true` entry. -/
theorem C9_mcp_counterexample :
    initialize_mcp_connections exHost exOutcome exLoadOk [exCfgA, exCfgA2] =
      [("a".data, false)] ∧
    ([exCfgA, exCfgA2] : List MCPConfig).length = 2 ∧
    (initialize_mcp_connections exHost exOutcome exLoadOk [exCfgA, exCfgA2]).length = 1 := by
  decide

/-- C9 (amended): when the resolved connection ids are pairwise distinct, the
mapping has exactly one entry per configuration, keyed by the explicit or
auto-generated id; the recorded value is `true` exactly when the connect call
reported success and either tool auto-loading is disabled or the subsequent
load-tools call (which runs inside the same handler before the `True`
assignment) did not raise — `false` when the connect failed or raised, or the
auto-load raised; the auto-generated id is a function of transport, command
or server url, and position only; the two-stdio scenario with one connect
success and one failure yields exactly one `true` and one `false` under the
respective ids; and a successful connect whose auto-load raises records
`false`. -/
theorem C9_mcp_initialization_amended (hostOf : PyStr → Except Unit (Option PyStr))
    (outcome loadOutcome : Nat → ConnectOutcome) (configs : List MCPConfig)
    (h : (mcpKeys hostOf 0 configs).Nodup) :
    initialize_mcp_connections hostOf outcome loadOutcome configs =
      mcpExpected hostOf outcome loadOutcome 0 configs ∧
    (initialize_mcp_connections hostOf outcome loadOutcome configs).length =
      configs.length ∧
    (∀ cfg cfg' i, cfg.transport = cfg'.transport → cfg.command = cfg'.command →
      cfg.server_url = cfg'.server_url →
      autoConnectionId hostOf cfg i = autoConnectionId hostOf cfg' i) ∧
    (∀ cfg c l, mcpRecordedValue cfg c l = true ↔
      (c = ConnectOutcome.success ∧
        (cfg.auto_load_tools.getD true = false ∨ l ≠ ConnectOutcome.raised))) ∧
    initialize_mcp_connections exHost exOutcome exLoadOk [exCfgAuto1, exCfgAuto2] =
      [("mcp_alpha_js_0".data, true), ("mcp_beta_js_1".data, false)] ∧
    initialize_mcp_connections exHost exConnOk exLoadRaise [exCfgAuto1] =
      [("mcp_alpha_js_0".data, false)] := by
  have hmain : initialize_mcp_connections hostOf outcome loadOutcome configs =
      mcpExpected hostOf outcome loadOutcome 0 configs := by
    unfold initialize_mcp_connections
    rw [initMCPAux_eq_expected hostOf outcome loadOutcome configs 0 []
      (by intro k hk; rfl) h]
    rfl
  refine ⟨hmain, ?_, ?_, ?_, by decide, by decide⟩
  · rw [hmain]
    exact mcpExpected_length hostOf outcome loadOutcome 0 configs
  · intro cfg cfg' i ht hc hu
    simp only [autoConnectionId, ht, hc, hu]
  · intro cfg c l
    cases c <;> cases l <;> cases hA : cfg.auto_load_tools.getD true <;>
      simp [mcpRecordedValue, hA]

/-- Witness for the amended C9: the two-stdio configuration list with
distinct auto-generated ids yields one entry per configuration. -/
theorem C9_mcp_initialization_amended_witness :
    initialize_mcp_connections exHost exOutcome exLoadOk [exCfgAuto1, exCfgAuto2] =
      mcpExpected exHost exOutcome exLoadOk 0 [exCfgAuto1, exCfgAuto2] ∧
    (initialize_mcp_connections exHost exOutcome exLoadOk
      [exCfgAuto1, exCfgAuto2]).length = 2 :=
  ⟨(C9_mcp_initialization_amended exHost exOutcome exLoadOk [exCfgAuto1, exCfgAuto2]
      (by decide)).1,
   (C9_mcp_initialization_amended exHost exOutcome exLoadOk [exCfgAuto1, exCfgAuto2]
      (by decide)).2.1⟩
